import Mathlib

/-!
Verification development for the security-group policy engine of the
quantum repository.  The engine itself (quantum/db/securitygroups_db.py and
the quantum.api.v2 attribute layer) is not present under src/; following the
specification (spec.md sections 3, 4, 6, 7) and the behaviour pinned by the
unit tests in src/quantum/tests/unit/test_extension_security_group.py, the
components below are a shallow embedding of that engine: the Validator,
the Identifier Resolver, the Policy Store, the Bulk Create Coordinator,
the Default-Group Provisioner and the Port Binding Adapter.
-/

namespace SecGroup

/-- Error taxonomy of the engine (spec section 7): Malformed maps to a
400-class format error, ValidationFailed to a 400-class semantic error,
NotFound to 404, Conflict to 409, Forbidden to 403. -/
inductive Err where
  | malformed
  | validationFailed
  | notFound
  | conflict
  | forbidden
deriving DecidableEq, Repr

/-- Caller authorization context consumed from the collaborator layer
(spec section 6): tenant identifier and admin flag. -/
structure Ctx where
  tenant : String
  is_admin : Bool
deriving DecidableEq, Repr

/-- A caller-supplied reference token: requests may carry either a string
or an integer in the wire payload (the tests pass both, e.g. the external
id 1 and the string "1", which denote the same alias). -/
inductive Token where
  | str (s : String)
  | int (n : Nat)
deriving DecidableEq, Repr

/-- SecurityGroup record (spec section 3). -/
structure SecurityGroup where
  id : String
  tenant_id : String
  name : String
  description : String
  external_id : Option Nat
deriving DecidableEq, Repr

/-- SecurityGroupRule record (spec section 3), in stored/normalized form:
ethertype in canonical mixed case, protocol lowercase, group references
resolved to canonical identifiers. -/
structure SecurityGroupRule where
  id : String
  security_group_id : String
  tenant_id : String
  direction : String
  ethertype : String
  protocol : Option String
  port_range_min : Option Nat
  port_range_max : Option Nat
  source_ip_prefix : Option String
  source_group_id : Option String
  external_id : Option Nat
deriving DecidableEq, Repr

/-- Committed state of the Policy Store: groups, rules, port-group
bindings (pairs of port id and group id) and the id-generation counter. -/
structure State where
  groups : List SecurityGroup
  rules : List SecurityGroupRule
  bindings : List (String × String)
  nextId : Nat
deriving DecidableEq, Repr

/-- The hexadecimal digit character for a value below 16 (decimal digits
start at code point 48, the letters a-f at 97). -/
def hexDigit (n : Nat) : Char :=
  if n < 10 then Char.ofNat (48 + n) else Char.ofNat (87 + n)

/-- Exactly k hexadecimal digits of n (most significant first). -/
def hexPad : Nat → Nat → List Char
  | 0, _ => []
  | k + 1, n => hexPad k (n / 16) ++ [hexDigit (n % 16)]

/-- Canonical identifier generation: system-generated, fixed 36-character
format (spec sections 3 and 4.2 speak of the canonical identifier's fixed
format; the tests check a length of 36). -/
def uuidOfNat (n : Nat) : String :=
  "00000000-0000-0000-0000-" ++ String.mk (hexPad 12 n)

/-- Lowercase of an ASCII letter, other characters unchanged. -/
def lowerChar (c : Char) : Char :=
  if c.toNat >= 65 && c.toNat <= 90 then Char.ofNat (c.toNat + 32) else c

/-- Case folding of a string (the engine compares ethertype and protocol
case-insensitively and stores lowercase forms). -/
def strLower (s : String) : String := String.mk (s.data.map lowerChar)

/-- The decimal digit value of a character, when it is a digit. -/
def digitVal? (c : Char) : Option Nat :=
  if c.toNat >= 48 && c.toNat <= 57 then some (c.toNat - 48) else none

/-- Accumulate the decimal value of a digit sequence. -/
def strToNatAux : List Char → Nat → Option Nat
  | [], acc => some acc
  | c :: cs, acc =>
    match digitVal? c with
    | some d => strToNatAux cs (acc * 10 + d)
    | none => none

/-- The integer denoted by a non-empty all-digit string (integer-like
strings act as external-id aliases under proxy mode). -/
def strToNat? (s : String) : Option Nat :=
  match s.data with
  | [] => none
  | cs => strToNatAux cs 0

/-- Modelled from the spec (section 4.2, Identifier Resolver; the resolver
lives in securitygroups_db, absent from src/): resolve a caller token under
a tenant scope.  A 36-character string is canonical-id shaped and looked up
directly; otherwise, under proxy mode an integer or integer-like string is
an external-id alias ("1" and 1 are the same alias); any other token is
Malformed.  A shape-valid token without a matching in-scope record is
NotFound. -/
def resolveGroupRef (proxy : Bool) (scope : String → Bool)
    (groups : List SecurityGroup) : Token → Except Err String
  | .str s =>
    if s.length == 36 then
      match groups.find? (fun g => g.id == s) with
      | some g => if scope g.tenant_id then .ok g.id else .error .notFound
      | none => .error .notFound
    else
      match strToNat? s with
      | some n =>
        if proxy then
          match groups.find? (fun g => g.external_id == some n) with
          | some g => if scope g.tenant_id then .ok g.id else .error .notFound
          | none => .error .notFound
        else .error .malformed
      | none => .error .malformed
  | .int n =>
    if proxy then
      match groups.find? (fun g => g.external_id == some n) with
      | some g => if scope g.tenant_id then .ok g.id else .error .notFound
      | none => .error .notFound
    else .error .malformed

/-- Whether a token is shape-valid for the resolver: canonical-id shaped,
or alias shaped while proxy mode is enabled (spec section 4.2). -/
def tokenShapeOk (proxy : Bool) : Token → Bool
  | .str s => s.length == 36 || (proxy && (strToNat? s).isSome)
  | .int _ => proxy

/-- Whether some stored group matches the token's shape-directed lookup
(by canonical id for canonical-shaped strings, by external-id alias for
alias-shaped tokens), ignoring tenant scope. -/
def tokenHasRecord (groups : List SecurityGroup) : Token → Bool
  | .str s =>
    if s.length == 36 then groups.any (fun g => g.id == s)
    else
      match strToNat? s with
      | some n => groups.any (fun g => g.external_id == some n)
      | none => false
  | .int n => groups.any (fun g => g.external_id == some n)

/-- A candidate rule payload as the engine receives it (spec section 3):
ethertype and protocol may arrive as strings or numbers, group references
as tokens, ports as integers or absent. -/
structure RulePayload where
  security_group_id : Token
  direction : String
  ethertype : Token
  protocol : Option Token
  port_range_min : Option Nat
  port_range_max : Option Nat
  source_ip_prefix : Option String
  source_group_id : Option Token
  external_id : Option Nat
  tenant_id : String
deriving DecidableEq, Repr

/-- Protocol whitelist (spec section 4.1, check 2). -/
def protocolWhitelist : List String := ["tcp", "udp", "icmp", "icmpv6"]

/-- Modelled from the spec (section 4.1, check 1; the Validator lives in
securitygroups_db and the extension module, absent from src/): ethertype
must case-insensitively match a known value and is normalized to canonical
mixed case; numeric input fails. -/
def normalizeEthertype : Token → Option String
  | .int _ => none
  | .str s =>
    if strLower s == "ipv4" then some "IPv4"
    else if strLower s == "ipv6" then some "IPv6"
    else none

/-- Modelled from the spec (section 4.1, check 2): protocol, when present,
must case-insensitively match a whitelist entry (not a number, not a
composite string) and is normalized to lowercase. -/
def normalizeProtocol : Option Token → Except Err (Option String)
  | none => .ok none
  | some (.int _) => .error .validationFailed
  | some (.str s) =>
    if protocolWhitelist.contains (strLower s) then .ok (some (strLower s))
    else .error .validationFailed

/-- Modelled from the spec (sections 4.1 and 4.3; the field validation of
securitygroups_db is absent from src/): field checks of a rule payload in
priority order — ethertype, protocol, port-range needs protocol and
min <= max, at most one source field — followed by the external-id policy
checks of create_rule: an external id outside proxy mode is a Conflict and
a non-admin caller setting an external id is Forbidden.  Returns the
normalized ethertype and protocol. -/
def validateFields (ctx : Ctx) (proxy : Bool) (p : RulePayload) :
    Except Err (String × Option String) :=
  match p with
  | ⟨_, _, eth, proto, mn, mx, sip, sgid, ext, _⟩ =>
    match normalizeEthertype eth with
    | none => .error .validationFailed
    | some ethN =>
      match normalizeProtocol proto with
      | .error e => .error e
      | .ok protoN =>
        if (mn.isSome || mx.isSome) && protoN.isNone then .error .validationFailed
        else if (match mn, mx with
                 | some lo, some hi => decide (hi < lo)
                 | _, _ => false) then .error .validationFailed
        else if sip.isSome && sgid.isSome then .error .validationFailed
        else if !proxy && ext.isSome then .error .conflict
        else if ext.isSome && !ctx.is_admin then .error .forbidden
        else .ok (ethN, protoN)

/-- Modelled from the spec (section 4.3, create_rule; securitygroups_db is
absent from src/): validate the payload, then resolve the owning group and
the optional source group under the effective tenant (the payload tenant
for an admin caller, the caller's tenant otherwise; an out-of-tenant or
missing group is NotFound).  Returns the normalized rule record, its id
still unassigned. -/
def prepareRule (ctx : Ctx) (proxy : Bool) (groups : List SecurityGroup)
    (p : RulePayload) : Except Err SecurityGroupRule :=
  match validateFields ctx proxy p with
  | .error e => .error e
  | .ok (ethN, protoN) =>
    match p with
    | ⟨gtok, dir, _, _, mn, mx, sip, sgid, ext, pten⟩ =>
      let tenant := if ctx.is_admin then pten else ctx.tenant
      match resolveGroupRef proxy (fun tid => tid == tenant) groups gtok with
      | .error e => .error e
      | .ok gid =>
        match sgid with
        | none => .ok ⟨"", gid, tenant, dir, ethN, protoN, mn, mx, sip, none, ext⟩
        | some stok =>
          match resolveGroupRef proxy (fun tid => tid == tenant) groups stok with
          | .error e => .error e
          | .ok sg => .ok ⟨"", gid, tenant, dir, ethN, protoN, mn, mx, sip, some sg, ext⟩

/-- The semantic identity of a rule within its group (spec section 3,
invariant: same direction, protocol, port range, ethertype and source,
within the same group). -/
def ruleKey (r : SecurityGroupRule) :
    String × String × Option String × Option Nat × Option Nat × String ×
      Option String × Option String :=
  match r with
  | ⟨_, gid, _, dir, eth, proto, mn, mx, sip, sgid, _⟩ =>
    (gid, dir, proto, mn, mx, eth, sip, sgid)

/-- Two rules are duplicates when their semantic identities coincide. -/
def isDuplicate (a b : SecurityGroupRule) : Bool := ruleKey a == ruleKey b

/-- Modelled from the spec (section 4.3, create_rule; securitygroups_db is
absent from src/): single rule creation — prepare (validate and resolve),
reject a duplicate external-id alias among the stored rules under proxy
mode (the alias namespace of rules is checked against rules only), reject
a semantic duplicate within the store, then commit the rule under a fresh
canonical id. -/
def create_security_group_rule (ctx : Ctx) (proxy : Bool) (st : State)
    (p : RulePayload) : Except Err (SecurityGroupRule × State) :=
  match prepareRule ctx proxy st.groups p with
  | .error e => .error e
  | .ok r =>
    if proxy && r.external_id.isSome &&
        st.rules.any (fun ex => ex.external_id == r.external_id) then
      .error .conflict
    else if st.rules.any (fun ex => isDuplicate ex r) then .error .conflict
    else
      let r1 := { r with id := uuidOfNat st.nextId }
      .ok (r1, { st with rules := st.rules ++ [r1], nextId := st.nextId + 1 })

/-- Whether every payload of a batch names the same owning group (pinned by
unit test test_create_security_group_rule_differnt_security_group_ids: a
native bulk batch must target a single group). -/
def sameGroupBatch : List RulePayload → Bool
  | [] => true
  | p :: ps => ps.all (fun q => q.security_group_id == p.security_group_id)

/-- Modelled from the spec (section 4.4, native path): insert the batch
items in order inside one store transaction; the first failure aborts the
whole transaction, so an error commits nothing. -/
def createRulesInTxn (ctx : Ctx) (proxy : Bool) :
    State → List RulePayload → Except Err (List SecurityGroupRule × State)
  | st, [] => .ok ([], st)
  | st, p :: ps =>
    match create_security_group_rule ctx proxy st p with
    | .error e => .error e
    | .ok (r, st1) =>
      match createRulesInTxn ctx proxy st1 ps with
      | .error e => .error e
      | .ok (rs, st2) => .ok (r :: rs, st2)

/-- Modelled from the spec (section 4.4, native path) and unit test
test_create_security_group_rule_differnt_security_group_ids: the native
bulk path first rejects a batch naming more than one owning group with a
400-class error, then validates and inserts the whole batch inside one
store transaction. -/
def create_rules_native (ctx : Ctx) (proxy : Bool) (st : State)
    (ps : List RulePayload) : Except Err (List SecurityGroupRule × State) :=
  if sameGroupBatch ps then createRulesInTxn ctx proxy st ps
  else .error .validationFailed

/-- Modelled from the spec (section 4.4, emulated path): each payload is
submitted through the single-item create path in order inside one
encompassing transaction scope; the first failure aborts and rolls back
all prior inserts from the same batch. -/
def create_rules_emulated (ctx : Ctx) (proxy : Bool) :
    State → List RulePayload → Except Err (List SecurityGroupRule × State)
  | st, [] => .ok ([], st)
  | st, p :: ps =>
    match create_security_group_rule ctx proxy st p with
    | .error e => .error e
    | .ok (r, st1) =>
      match create_rules_emulated ctx proxy st1 ps with
      | .error e => .error e
      | .ok (rs, st2) => .ok (r :: rs, st2)

/-- The committed state after an operation: a failed operation leaves the
previous committed state in place (spec sections 4.4 and 5: an aborted
transaction leaves no partial writes). -/
def commitState (st : State) :
    Except Err (List SecurityGroupRule × State) → State
  | .error _ => st
  | .ok (_, st1) => st1

/-- Modelled from the spec (section 4.3, create_group; securitygroups_db
is absent from src/): group creation rejects an external id outside proxy
mode as Conflict, a missing external id under proxy mode as a validation
failure, a non-admin caller setting an external id as Forbidden, the
reserved default name as Conflict, and a duplicate external id under
proxy mode as Conflict; otherwise the group is committed under a fresh
canonical id. -/
def create_security_group (ctx : Ctx) (proxy : Bool) (st : State)
    (tenant_id name description : String) (external_id : Option Nat) :
    Except Err (SecurityGroup × State) :=
  if !proxy && external_id.isSome then .error .conflict
  else if proxy && external_id.isNone then .error .validationFailed
  else if external_id.isSome && !ctx.is_admin then .error .forbidden
  else if name == "default" then .error .conflict
  else if proxy && st.groups.any (fun g => g.external_id == external_id) then
    .error .conflict
  else
    let tenant := if ctx.is_admin then tenant_id else ctx.tenant
    let g : SecurityGroup := ⟨uuidOfNat st.nextId, tenant, name, description, external_id⟩
    .ok (g, { st with groups := st.groups ++ [g], nextId := st.nextId + 1 })

/-- The two seeded rules of a tenant's default group (spec section 3):
allow all egress, and allow ingress from members of the same group; both
with protocol and port bounds null. -/
def defaultRules (gid tenant : String) (n : Nat) : List SecurityGroupRule :=
  [⟨uuidOfNat n, gid, tenant, "ingress", "IPv4", none, none, none, none, some gid, none⟩,
   ⟨uuidOfNat (n + 1), gid, tenant, "egress", "IPv4", none, none, none, none, none, none⟩]

/-- Modelled from the spec (section 4.5, Default-Group Provisioner;
securitygroups_db is absent from src/): ensure the tenant's default group
exists — a no-op returning the existing group when present, otherwise the
group named "default" is created with its two seeded rules. -/
def ensure_default_security_group (st : State) (tenant : String) :
    String × State :=
  match st.groups.find? (fun g => g.tenant_id == tenant && g.name == "default") with
  | some g => (g.id, st)
  | none =>
    let gid := uuidOfNat st.nextId
    (gid,
     { st with
       groups := st.groups ++ [⟨gid, tenant, "default", "default", none⟩],
       rules := st.rules ++ defaultRules gid tenant (st.nextId + 1),
       nextId := st.nextId + 3 })

/-- Network creation as far as the engine observes it (the test plugin's
create_network, src/quantum/tests/unit/test_extension_security_group.py
lines 205-209): provision the tenant's default security group. -/
def create_network (st : State) (tenant : String) : State :=
  (ensure_default_security_group st tenant).2

/-- The security_groups attribute of a port request: absent from the
request, present as an explicit no-value marker, or present as a list of
reference tokens. -/
inductive SgAttr where
  | absent
  | null
  | given (ts : List Token)
deriving DecidableEq, Repr

/-- Modelled from the spec (section 4.6): the attribute-presence test
(quantum.api.v2.attributes.is_attr_set, not under src/).  Only a missing
attribute is unset; an explicit no-value marker and an empty collection
are both present (and both bind no groups). -/
def is_attr_set : SgAttr → Bool
  | .absent => false
  | .null => true
  | .given _ => true

/-- Resolution of a token list in submission order; the first failing
entry aborts with the resolver's error (spec section 4.6). -/
def resolveTokens (proxy : Bool) (scope : String → Bool)
    (groups : List SecurityGroup) : List Token → Except Err (List String)
  | [] => .ok []
  | t :: ts =>
    match resolveGroupRef proxy scope groups t with
    | .error e => .error e
    | .ok gid =>
      match resolveTokens proxy scope groups ts with
      | .error e => .error e
      | .ok gids => .ok (gid :: gids)

/-- Modelled from the spec (section 4.6; _get_security_groups_on_port of
securitygroups_db is absent from src/): the group references carried by a
present security_groups attribute — an empty collection or the no-value
marker binds no groups, a token list is resolved entrywise. -/
def resolveRefs (proxy : Bool) (scope : String → Bool)
    (groups : List SecurityGroup) : SgAttr → Except Err (List String)
  | .absent => .ok []
  | .null => .ok []
  | .given ts => resolveTokens proxy scope groups ts

/-- Tenant scope for port-side group resolution: an admin sees all
groups, a non-admin only the groups of its own tenant. -/
def portScope (ctx : Ctx) (tid : String) : Bool :=
  ctx.is_admin || tid == ctx.tenant

/-- The security-group membership a port read reports: the group ids
bound to the port (spec section 4.6, read enrichment). -/
def port_security_groups (st : State) (pid : String) : List String :=
  (st.bindings.filter (fun b => b.1 == pid)).map (fun b => b.2)

/-- Port creation (the test plugin's create_port,
src/quantum/tests/unit/test_extension_security_group.py lines 175-188,
with the absent securitygroups_db pieces modelled from spec section 4.6):
provision the tenant's default group; when the security_groups attribute
is not set, bind the port to the default group; otherwise resolve the
present attribute and bind the port to the resolved set, aborting the
whole create on a resolution failure. -/
def create_port (ctx : Ctx) (proxy : Bool) (st : State)
    (pid tenant : String) (sg : SgAttr) : Except Err (List String × State) :=
  let ens := ensure_default_security_group st tenant
  let sg1 := if is_attr_set sg then sg else .given [.str ens.1]
  match resolveRefs proxy (portScope ctx) ens.2.groups sg1 with
  | .error e => .error e
  | .ok sgids =>
    .ok (sgids,
      { ens.2 with bindings := ens.2.bindings ++ sgids.map (fun g => (pid, g)) })

/-- Port update (the test plugin's update_port,
src/quantum/tests/unit/test_extension_security_group.py lines 190-203,
with the absent securitygroups_db pieces modelled from spec section 4.6):
when the security_groups key is absent from the patch the bindings are
preserved; when present the full binding set is atomically replaced by
the resolved set. -/
def update_port (ctx : Ctx) (proxy : Bool) (st : State) (pid : String)
    (sg : SgAttr) : Except Err (List String × State) :=
  match sg with
  | .absent => .ok (port_security_groups st pid, st)
  | a =>
    match resolveRefs proxy (portScope ctx) st.groups a with
    | .error e => .error e
    | .ok sgids =>
      .ok (sgids,
        { st with bindings :=
            st.bindings.filter (fun b => b.1 != pid) ++
              sgids.map (fun g => (pid, g)) })

/-! Basic lemmas about the embedding. -/

theorem hexPad_length (k n : Nat) : (hexPad k n).length = k := by
  induction k generalizing n with
  | zero => rfl
  | succ k ih => simp [hexPad, ih]

theorem uuidOfNat_length (n : Nat) : (uuidOfNat n).length = 36 := by
  simp [uuidOfNat, String.length_append, String.length_mk, hexPad_length]
  decide

theorem find?_append_none {α : Type} (p : α → Bool) (l1 l2 : List α)
    (h : l1.find? p = none) : (l1 ++ l2).find? p = l2.find? p := by
  induction l1 with
  | nil => rfl
  | cons a l ih =>
    rw [List.find?_cons] at h
    rcases hp : p a with _ | _
    · simp only [List.cons_append, List.find?_cons, hp]
      exact ih (by simpa [hp] using h)
    · simp [hp] at h

/-- Replacing the generated id leaves the semantic identity unchanged. -/
theorem ruleKey_setId (r : SecurityGroupRule) (x : String) :
    ruleKey { r with id := x } = ruleKey r := by
  cases r; rfl

/-- A successfully resolved reference is the canonical id of a stored
group: the resolver never returns the raw alias. -/
theorem resolveGroupRef_ok_mem (proxy : Bool) (scope : String → Bool)
    (groups : List SecurityGroup) (t : Token) (gid : String)
    (h : resolveGroupRef proxy scope groups t = .ok gid) :
    ∃ g ∈ groups, gid = g.id := by
  cases t with
  | str s =>
    by_cases h36 : (s.length == 36) = true
    · simp only [resolveGroupRef, h36, if_true] at h
      rcases hf : groups.find? (fun g => g.id == s) with _ | g
      · simp [hf] at h
      · rcases hs : scope g.tenant_id with _ | _ <;> simp [hf, hs] at h
        exact ⟨g, List.mem_of_find?_eq_some hf, h.symm⟩
    · simp only [resolveGroupRef, h36, if_false] at h
      rcases hn : strToNat? s with _ | n
      · simp [hn] at h
      · rcases hp : proxy with _ | _
        · simp [hn, hp] at h
        · simp only [hn, hp, if_true] at h
          rcases hf : groups.find? (fun g => g.external_id == some n) with _ | g
          · simp [hf] at h
          · rcases hs : scope g.tenant_id with _ | _ <;> simp [hf, hs] at h
            exact ⟨g, List.mem_of_find?_eq_some hf, h.symm⟩
  | int n =>
    rcases hp : proxy with _ | _
    · simp [resolveGroupRef, hp] at h
    · simp only [resolveGroupRef, hp, if_true] at h
      rcases hf : groups.find? (fun g => g.external_id == some n) with _ | g
      · simp [hf] at h
      · rcases hs : scope g.tenant_id with _ | _ <;> simp [hf, hs] at h
        exact ⟨g, List.mem_of_find?_eq_some hf, h.symm⟩

/-- A token outside both reference shapes resolves to Malformed. -/
theorem resolveGroupRef_malformed (proxy : Bool) (scope : String → Bool)
    (groups : List SecurityGroup) (t : Token)
    (h : tokenShapeOk proxy t = false) :
    resolveGroupRef proxy scope groups t = .error .malformed := by
  cases t with
  | str s =>
    simp only [tokenShapeOk, Bool.or_eq_false_iff, Bool.and_eq_false_iff] at h
    obtain ⟨h36, hrest⟩ := h
    simp only [resolveGroupRef, h36, if_false]
    rcases hn : strToNat? s with _ | n
    · rfl
    · rcases hrest with hp | hs
      · simp [hp]
      · simp [hn] at hs
  | int n =>
    simp only [tokenShapeOk] at h
    simp [resolveGroupRef, h]

/-- A shape-valid token with no matching record resolves to NotFound. -/
theorem resolveGroupRef_notFound (proxy : Bool) (scope : String → Bool)
    (groups : List SecurityGroup) (t : Token)
    (hshape : tokenShapeOk proxy t = true)
    (hrec : tokenHasRecord groups t = false) :
    resolveGroupRef proxy scope groups t = .error .notFound := by
  cases t with
  | str s =>
    by_cases h36 : (s.length == 36) = true
    · simp only [tokenHasRecord, h36, if_true] at hrec
      have hf : groups.find? (fun g => g.id == s) = none := by
        rw [List.find?_eq_none]
        intro g hg
        simpa using List.any_eq_false.mp hrec g hg
      simp [resolveGroupRef, h36, hf]
    · simp only [tokenShapeOk, h36, Bool.false_or, Bool.and_eq_true] at hshape
      obtain ⟨hp, hn⟩ := hshape
      rcases hn2 : strToNat? s with _ | n
      · simp [hn2] at hn
      · simp only [tokenHasRecord, h36, if_false, hn2] at hrec
        have hf : groups.find? (fun g => g.external_id == some n) = none := by
          rw [List.find?_eq_none]
          intro g hg
          simpa using List.any_eq_false.mp hrec g hg
        simp [resolveGroupRef, h36, hn2, hp, hf]
  | int n =>
    simp only [tokenShapeOk] at hshape
    simp only [tokenHasRecord] at hrec
    have hf : groups.find? (fun g => g.external_id == some n) = none := by
      rw [List.find?_eq_none]
      intro g hg
      simpa using List.any_eq_false.mp hrec g hg
    simp [resolveGroupRef, hshape, hf]

/-- Inversion of a successful single rule creation: the payload prepared
successfully, the stored rule is the prepared rule under the fresh id, and
the new state appends exactly that rule. -/
theorem create_rule_ok_inv (ctx : Ctx) (proxy : Bool) (st : State)
    (p : RulePayload) (r : SecurityGroupRule) (st1 : State)
    (h : create_security_group_rule ctx proxy st p = .ok (r, st1)) :
    ∃ r0, prepareRule ctx proxy st.groups p = .ok r0 ∧
      r = { r0 with id := uuidOfNat st.nextId } ∧
      st1 = { st with rules := st.rules ++ [r], nextId := st.nextId + 1 } := by
  rcases hp : prepareRule ctx proxy st.groups p with e | r0
  · simp [create_security_group_rule, hp] at h
  · refine ⟨r0, rfl, ?_⟩
    simp only [create_security_group_rule, hp] at h
    rcases hc1 : (proxy && r0.external_id.isSome &&
        st.rules.any fun ex => ex.external_id == r0.external_id) with _ | _
    · rcases hc2 : (st.rules.any fun ex => isDuplicate ex r0) with _ | _
      · simp only [hc1, hc2, Bool.false_eq_true, if_false, Except.ok.injEq,
          Prod.mk.injEq] at h
        exact ⟨h.1.symm, by rw [← h.1, ← h.2]⟩
      · simp [hc1, hc2] at h
    · simp [hc1] at h

/-- A successful single rule creation does not change the stored groups. -/
theorem create_rule_ok_groups (ctx : Ctx) (proxy : Bool) (st : State)
    (p : RulePayload) (r : SecurityGroupRule) (st1 : State)
    (h : create_security_group_rule ctx proxy st p = .ok (r, st1)) :
    st1.groups = st.groups := by
  obtain ⟨r0, _, _, hst⟩ := create_rule_ok_inv ctx proxy st p r st1 h
  rw [hst]

/-- Submitting a payload again right after its rule was committed hits the
duplicate detection and yields Conflict. -/
theorem create_rule_self_duplicate (ctx : Ctx) (proxy : Bool) (st : State)
    (p : RulePayload) (r : SecurityGroupRule) (st1 : State)
    (h : create_security_group_rule ctx proxy st p = .ok (r, st1)) :
    create_security_group_rule ctx proxy st1 p = .error .conflict := by
  obtain ⟨r0, hp, hr, hst⟩ := create_rule_ok_inv ctx proxy st p r st1 h
  have hg : st1.groups = st.groups := by rw [hst]
  have hp1 : prepareRule ctx proxy st1.groups p = .ok r0 := by rw [hg]; exact hp
  have hrules : st1.rules = st.rules ++ [r] := by rw [hst]
  simp only [create_security_group_rule, hp1]
  rcases hc1 : (proxy && r0.external_id.isSome &&
      st1.rules.any fun ex => ex.external_id == r0.external_id) with _ | _
  · have hdup : (st1.rules.any fun ex => isDuplicate ex r0) = true := by
      rw [hrules, List.any_append]
      have : isDuplicate r r0 = true := by
        simp [isDuplicate, hr, ruleKey_setId]
      simp [this]
    simp [hc1, hdup]
  · simp [hc1]

/-- Resolution of a token list distributes over an initial successfully
resolved segment. -/
theorem resolveTokens_append_ok (proxy : Bool) (scope : String → Bool)
    (groups : List SecurityGroup) (l1 l2 : List Token) (xs : List String)
    (h : resolveTokens proxy scope groups l1 = .ok xs) :
    resolveTokens proxy scope groups (l1 ++ l2) =
      match resolveTokens proxy scope groups l2 with
      | .error e => .error e
      | .ok ys => .ok (xs ++ ys) := by
  induction l1 generalizing xs with
  | nil =>
    simp only [resolveTokens] at h
    cases h
    simp only [List.nil_append]
    rcases h2 : resolveTokens proxy scope groups l2 with e | ys <;> simp [h2]
  | cons t ts ih =>
    simp only [resolveTokens] at h ⊢
    rcases hr : resolveGroupRef proxy scope groups t with e | gid
    · simp [hr] at h
    · simp only [hr] at h ⊢
      rcases hrest : resolveTokens proxy scope groups ts with e | gids
      · simp [hrest] at h
      · simp only [hrest, Except.ok.injEq] at h
        rw [List.append_eq, ih gids hrest]
        rcases h2 : resolveTokens proxy scope groups l2 with e | ys <;>
          simp [h2, ← h]

/-- Every identifier produced by token-list resolution is the canonical id
of a stored group. -/
theorem resolveTokens_ok_mem (proxy : Bool) (scope : String → Bool)
    (groups : List SecurityGroup) (ts : List Token) (gids : List String)
    (h : resolveTokens proxy scope groups ts = .ok gids) :
    ∀ gid ∈ gids, ∃ g ∈ groups, gid = g.id := by
  induction ts generalizing gids with
  | nil =>
    simp only [resolveTokens] at h
    cases h
    simp
  | cons t ts ih =>
    simp only [resolveTokens] at h
    rcases hr : resolveGroupRef proxy scope groups t with e | gid0
    · simp [hr] at h
    · simp only [hr] at h
      rcases hrest : resolveTokens proxy scope groups ts with e | gids0
      · simp [hrest] at h
      · simp only [hrest, Except.ok.injEq] at h
        intro gid hmem
        rw [← h] at hmem
        rcases List.mem_cons.mp hmem with h1 | h1
        · rw [h1]
          exact resolveGroupRef_ok_mem proxy scope groups t gid0 hr
        · exact ih gids0 hrest gid h1

/-- A preparation failure is the creation outcome. -/
theorem prepare_error_create (ctx : Ctx) (proxy : Bool) (st : State)
    (p : RulePayload) (e : Err)
    (h : prepareRule ctx proxy st.groups p = .error e) :
    create_security_group_rule ctx proxy st p = .error e := by
  simp [create_security_group_rule, h]

/-- Lookup cases of a canonical-shaped reference: a missing record and an
out-of-scope record resolve to the same NotFound. -/
theorem resolveGroupRef_uuid_cases (proxy : Bool) (scope : String → Bool)
    (groups : List SecurityGroup) (s : String) (hlen : s.length = 36) :
    (groups.find? (fun g => g.id == s) = none →
      resolveGroupRef proxy scope groups (.str s) = .error .notFound) ∧
    (∀ g, groups.find? (fun g1 => g1.id == s) = some g →
      scope g.tenant_id = false →
      resolveGroupRef proxy scope groups (.str s) = .error .notFound) := by
  have h36 : (s.length == 36) = true := by simp [hlen]
  constructor
  · intro hf
    simp [resolveGroupRef, h36, hf]
  · intro g hf hs
    simp [resolveGroupRef, h36, hf, hs]

/-- A canonical-shaped reference never fails with an error other than
NotFound. -/
theorem resolveGroupRef_uuid_err (proxy : Bool) (scope : String → Bool)
    (groups : List SecurityGroup) (s : String) (e : Err)
    (hlen : s.length = 36)
    (h : resolveGroupRef proxy scope groups (.str s) = .error e) :
    e = .notFound := by
  have h36 : (s.length == 36) = true := by simp [hlen]
  simp only [resolveGroupRef, h36, if_true] at h
  rcases hf : groups.find? (fun g => g.id == s) with _ | g
  · simp only [hf, Except.error.injEq] at h
    exact h.symm
  · simp only [hf] at h
    rcases hs : scope g.tenant_id with _ | _ <;> simp [hs] at h
    exact h.symm

/-! Concrete fixtures used by the witnesses below. -/

/-- An admin caller of the test tenant. -/
def wadmin : Ctx := ⟨"test_tenant", true⟩

/-- The empty committed state. -/
def wst0 : State := ⟨[], [], [], 0⟩

/-- A state holding one user group of the test tenant. -/
def wst1 : State :=
  ⟨[⟨uuidOfNat 0, "test_tenant", "webservers", "my webservers", none⟩], [], [], 1⟩

/-- The rule payload of the duplicate tests: ingress tcp 22-22 from
10.0.0.1/24 against the fixture group. -/
def wp1 : RulePayload :=
  ⟨.str (uuidOfNat 0), "ingress", .str "IPv4", some (.str "tcp"),
   some 22, some 22, some "10.0.0.1/24", none, none, "test_tenant"⟩

/-- A second payload differing from wp1 only in its port range. -/
def wp2 : RulePayload :=
  ⟨.str (uuidOfNat 0), "ingress", .str "IPv4", some (.str "tcp"),
   some 23, some 23, some "10.0.0.1/24", none, none, "test_tenant"⟩

/-- A payload naming a different owning group than wp1. -/
def wpOther : RulePayload :=
  ⟨.str (uuidOfNat 1), "ingress", .str "IPv4", some (.str "tcp"),
   some 23, some 23, some "10.0.0.1/24", none, none, "test_tenant"⟩

/-! The claims. -/

/-- C5: for every group-create request the presence of external_id must
match the deployment's proxy-mode flag — with proxy mode enabled,
omitting external_id fails as a 400-class validation error; with proxy
mode disabled, supplying any external_id fails as Conflict (409-class). -/
theorem C5_group_external_id_proxy_flag (ctx : Ctx) (st : State)
    (tenant name desc : String) (e : Nat) :
    create_security_group ctx true st tenant name desc none =
      .error Err.validationFailed ∧
    create_security_group ctx false st tenant name desc (some e) =
      .error Err.conflict := by
  constructor <;> rfl

/-- C9: a native bulk rule batch whose payloads reference two different
security_group_ids is rejected with a 400-class error and creates no
rules, even when each payload would be individually valid. -/
theorem C9_bulk_requires_single_group (ctx : Ctx) (proxy : Bool)
    (st : State) (ps : List RulePayload)
    (h : sameGroupBatch ps = false) :
    create_rules_native ctx proxy st ps = .error Err.validationFailed ∧
    (commitState st (create_rules_native ctx proxy st ps)).rules = st.rules := by
  simp [create_rules_native, h, commitState]

theorem C9_witness :
    sameGroupBatch [wp1, wpOther] = false ∧
    create_rules_native wadmin false wst1 [wp1, wpOther] =
      .error Err.validationFailed ∧
    (commitState wst1 (create_rules_native wadmin false wst1 [wp1, wpOther])).rules =
      wst1.rules :=
  ⟨by decide,
   (C9_bulk_requires_single_group wadmin false wst1 [wp1, wpOther] (by decide)).1,
   (C9_bulk_requires_single_group wadmin false wst1 [wp1, wpOther] (by decide)).2⟩

/-- C4: immediately after a tenant's first network creation exactly one
security group named "default" exists for the tenant, carrying exactly the
two seeded rules, both with protocol, port_range_min and port_range_max
all null; provisioning is idempotent, so a second network creation for
the tenant changes nothing. -/
theorem C4_default_group_provisioning (st : State) (tenant : String)
    (hnodef : st.groups.any
      (fun g => g.tenant_id == tenant && g.name == "default") = false)
    (hfresh : st.rules.any
      (fun r => r.security_group_id == uuidOfNat st.nextId) = false) :
    ((create_network st tenant).groups.filter
        (fun g => g.tenant_id == tenant && g.name == "default")).length = 1 ∧
    (create_network st tenant).rules.filter
        (fun r => r.security_group_id == uuidOfNat st.nextId) =
      defaultRules (uuidOfNat st.nextId) tenant (st.nextId + 1) ∧
    ((defaultRules (uuidOfNat st.nextId) tenant (st.nextId + 1)).all
        (fun r => r.protocol == none && r.port_range_min == none &&
          r.port_range_max == none)) = true ∧
    create_network (create_network st tenant) tenant = create_network st tenant := by
  have hfind : st.groups.find?
      (fun g => g.tenant_id == tenant && g.name == "default") = none := by
    rw [List.find?_eq_none]
    intro g hg
    simpa using List.any_eq_false.mp hnodef g hg
  have hnil : st.groups.filter
      (fun g => g.tenant_id == tenant && g.name == "default") = [] := by
    rw [List.filter_eq_nil_iff]
    intro g hg
    simpa using List.any_eq_false.mp hnodef g hg
  have hrnil : st.rules.filter
      (fun r => r.security_group_id == uuidOfNat st.nextId) = [] := by
    rw [List.filter_eq_nil_iff]
    intro r hr
    simpa using List.any_eq_false.mp hfresh r hr
  refine ⟨?_, ?_, by simp [defaultRules], ?_⟩
  · simp [create_network, ensure_default_security_group, hfind,
      List.filter_append, hnil]
  · simp [create_network, ensure_default_security_group, hfind,
      List.filter_append, hrnil, defaultRules]
  · simp only [create_network, ensure_default_security_group, hfind]
    rw [find?_append_none _ _ _ hfind]
    simp [List.find?]

theorem C4_witness :
    (wst0.groups.any
      (fun g => g.tenant_id == "t" && g.name == "default") = false) ∧
    ((create_network wst0 "t").groups.filter
        (fun g => g.tenant_id == "t" && g.name == "default")).length = 1 ∧
    create_network (create_network wst0 "t") "t" = create_network wst0 "t" :=
  ⟨by decide,
   (C4_default_group_provisioning wst0 "t" (by decide) (by decide)).1,
   (C4_default_group_provisioning wst0 "t" (by decide) (by decide)).2.2.2⟩

/-- C3: on port create — with the security_groups attribute absent the
port is bound to the tenant's default group; with the attribute present
as an empty list or as an explicit null the port is bound to no groups,
and in both of the latter cases reading the port back returns the empty
list (the read-back is a list, never a null). -/
theorem C3_port_create_group_binding (ctx : Ctx) (proxy : Bool) (st : State)
    (pid tenant : String)
    (hadm : ctx.is_admin = true)
    (hnodef : st.groups.any
      (fun g => g.tenant_id == tenant && g.name == "default") = false)
    (hfreshid : st.groups.any (fun g => g.id == uuidOfNat st.nextId) = false)
    (hport : st.bindings.any (fun b => b.1 == pid) = false) :
    Except.map (fun q => (q.1, port_security_groups q.2 pid))
        (create_port ctx proxy st pid tenant .absent) =
      .ok ([uuidOfNat st.nextId], [uuidOfNat st.nextId]) ∧
    Except.map (fun q => (q.1, port_security_groups q.2 pid))
        (create_port ctx proxy st pid tenant .null) = .ok ([], []) ∧
    Except.map (fun q => (q.1, port_security_groups q.2 pid))
        (create_port ctx proxy st pid tenant (.given [])) = .ok ([], []) := by
  have hfind : st.groups.find?
      (fun g => g.tenant_id == tenant && g.name == "default") = none := by
    rw [List.find?_eq_none]
    intro g hg
    simpa using List.any_eq_false.mp hnodef g hg
  have hfindid : st.groups.find? (fun g => g.id == uuidOfNat st.nextId) = none := by
    rw [List.find?_eq_none]
    intro g hg
    simpa using List.any_eq_false.mp hfreshid g hg
  have hbnil : st.bindings.filter (fun b => b.1 == pid) = [] := by
    rw [List.filter_eq_nil_iff]
    intro b hb
    simpa using List.any_eq_false.mp hport b hb
  have hres : resolveTokens proxy (portScope ctx)
      (st.groups ++ [⟨uuidOfNat st.nextId, tenant, "default", "default", none⟩])
      [Token.str (uuidOfNat st.nextId)] = .ok [uuidOfNat st.nextId] := by
    simp only [resolveTokens, resolveGroupRef, uuidOfNat_length]
    rw [find?_append_none _ _ _ hfindid]
    simp [portScope, hadm, List.find?]
  refine ⟨?_, ?_, ?_⟩
  · simp [create_port, ensure_default_security_group, hfind, is_attr_set,
      resolveRefs, hres, Except.map, port_security_groups,
      List.filter_append, hbnil]
  · simp [create_port, ensure_default_security_group, hfind, is_attr_set,
      resolveRefs, Except.map, port_security_groups,
      List.filter_append, hbnil]
  · simp [create_port, ensure_default_security_group, hfind, is_attr_set,
      resolveRefs, resolveTokens, Except.map, port_security_groups,
      List.filter_append, hbnil]

theorem C3_witness :
    (wst0.groups.any
      (fun g => g.tenant_id == "test_tenant" && g.name == "default") = false) ∧
    Except.map (fun q => (q.1, port_security_groups q.2 "port1"))
        (create_port wadmin false wst0 "port1" "test_tenant" .absent) =
      .ok ([uuidOfNat 0], [uuidOfNat 0]) ∧
    Except.map (fun q => (q.1, port_security_groups q.2 "port1"))
        (create_port wadmin false wst0 "port1" "test_tenant" .null) =
      .ok ([], []) ∧
    Except.map (fun q => (q.1, port_security_groups q.2 "port1"))
        (create_port wadmin false wst0 "port1" "test_tenant" (.given [])) =
      .ok ([], []) :=
  ⟨by decide,
   (C3_port_create_group_binding wadmin false wst0 "port1" "test_tenant"
      (by decide) (by decide) (by decide) (by decide)).1,
   (C3_port_create_group_binding wadmin false wst0 "port1" "test_tenant"
      (by decide) (by decide) (by decide) (by decide)).2.1,
   (C3_port_create_group_binding wadmin false wst0 "port1" "test_tenant"
      (by decide) (by decide) (by decide) (by decide)).2.2⟩

/-- A state holding one proxy-mode group of the test tenant whose
external id is 1. -/
def wstp : State :=
  ⟨[⟨uuidOfNat 0, "test_tenant", "webservers", "my webservers", some 1⟩], [], [], 1⟩

/-- The proxy-mode rule payload of the alias-namespace test: external id 1,
source group equal to the owning group. -/
def wpx : RulePayload :=
  ⟨.str (uuidOfNat 0), "ingress", .str "IPv4", some (.str "tcp"),
   some 22, some 22, none, some (.str (uuidOfNat 0)), some 1, "test_tenant"⟩

/-- The prepared (normalized, unassigned-id) form of wpx against wstp. -/
def wrx : SecurityGroupRule :=
  ⟨"", uuidOfNat 0, "test_tenant", "ingress", "IPv4", some "tcp",
   some 22, some 22, none, some (uuidOfNat 0), some 1⟩

/-- C10: with proxy mode enabled, creating a rule whose external_id equals
the external_id of an existing security group succeeds — rule external-id
uniqueness is checked only against other rules, so the group and rule
alias namespaces are disjoint. -/
theorem C10_rule_alias_namespace_disjoint (ctx : Ctx) (st : State)
    (p : RulePayload) (g : SecurityGroup) (e : Nat) (r0 : SecurityGroupRule)
    (_hmem : g ∈ st.groups) (_hge : g.external_id = some e)
    (hprep : prepareRule ctx true st.groups p = .ok r0)
    (hre : r0.external_id = some e)
    (hnoalias : st.rules.any (fun x => x.external_id == some e) = false)
    (hnodup : st.rules.any (fun x => isDuplicate x r0) = false) :
    create_security_group_rule ctx true st p =
      .ok ({ r0 with id := uuidOfNat st.nextId },
        { st with
          rules := st.rules ++ [{ r0 with id := uuidOfNat st.nextId }],
          nextId := st.nextId + 1 }) := by
  simp [create_security_group_rule, hprep, hre, hnoalias, hnodup]

theorem C10_witness :
    ((⟨uuidOfNat 0, "test_tenant", "webservers", "my webservers", some 1⟩ :
        SecurityGroup) ∈ wstp.groups) ∧
    create_security_group_rule wadmin true wstp wpx =
      .ok ({ wrx with id := uuidOfNat wstp.nextId },
        { wstp with
          rules := wstp.rules ++ [{ wrx with id := uuidOfNat wstp.nextId }],
          nextId := wstp.nextId + 1 }) :=
  ⟨by decide,
   C10_rule_alias_namespace_disjoint wadmin wstp wpx
     ⟨uuidOfNat 0, "test_tenant", "webservers", "my webservers", some 1⟩ 1 wrx
     (by decide) rfl rfl rfl rfl rfl⟩

/-- C8: for a non-admin caller, a rule-create whose referenced owning
group — or referenced source group — is a well-formed identifier that
either does not exist at all or exists only under a different tenant is
reported as the same NotFound in every case, so cross-tenant existence is
never disclosed. -/
theorem C8_not_found_hides_tenancy (ctx : Ctx) (proxy : Bool) (st : State)
    (p : RulePayload) (eth : String) (proto : Option String) (s : String)
    (hna : ctx.is_admin = false)
    (hv : validateFields ctx proxy p = .ok (eth, proto))
    (htok : p.security_group_id = Token.str s)
    (hlen : s.length = 36) :
    (st.groups.find? (fun g => g.id == s) = none →
      create_security_group_rule ctx proxy st p = .error Err.notFound) ∧
    (∀ g, st.groups.find? (fun g1 => g1.id == s) = some g →
      g.tenant_id ≠ ctx.tenant →
      create_security_group_rule ctx proxy st p = .error Err.notFound) ∧
    (∀ s2, p.source_group_id = some (Token.str s2) → s2.length = 36 →
      st.groups.find? (fun g1 => g1.id == s2) = none →
      create_security_group_rule ctx proxy st p = .error Err.notFound) ∧
    (∀ s2 g2, p.source_group_id = some (Token.str s2) → s2.length = 36 →
      st.groups.find? (fun g1 => g1.id == s2) = some g2 →
      g2.tenant_id ≠ ctx.tenant →
      create_security_group_rule ctx proxy st p = .error Err.notFound) := by
  obtain ⟨gtok, dir, eth0, proto0, mn, mx, sip, sgid0, ext0, pten⟩ := p
  simp only at htok
  subst htok
  refine ⟨?_, ?_, ?_, ?_⟩
  · intro hf
    apply prepare_error_create
    simp only [prepareRule, hv, hna, Bool.false_eq_true, if_false]
    rw [(resolveGroupRef_uuid_cases proxy _ st.groups s hlen).1 hf]
  · intro g hf hten
    apply prepare_error_create
    simp only [prepareRule, hv, hna, Bool.false_eq_true, if_false]
    rw [(resolveGroupRef_uuid_cases proxy _ st.groups s hlen).2 g hf
      (by simp [hten])]
  · intro s2 hsrc hlen2 hf2
    simp only at hsrc
    subst hsrc
    apply prepare_error_create
    simp only [prepareRule, hv, hna, Bool.false_eq_true, if_false]
    rcases hro : resolveGroupRef proxy (fun tid => tid == ctx.tenant)
        st.groups (.str s) with e0 | gid
    · rw [resolveGroupRef_uuid_err proxy _ st.groups s e0 hlen hro]
    · rw [(resolveGroupRef_uuid_cases proxy _ st.groups s2 hlen2).1 hf2]
  · intro s2 g2 hsrc hlen2 hf2 hten2
    simp only at hsrc
    subst hsrc
    apply prepare_error_create
    simp only [prepareRule, hv, hna, Bool.false_eq_true, if_false]
    rcases hro : resolveGroupRef proxy (fun tid => tid == ctx.tenant)
        st.groups (.str s) with e0 | gid
    · rw [resolveGroupRef_uuid_err proxy _ st.groups s e0 hlen hro]
    · rw [(resolveGroupRef_uuid_cases proxy _ st.groups s2 hlen2).2 g2 hf2
        (by simp [hten2])]

/-- A non-admin caller of a tenant that owns nothing in the fixtures. -/
def wother : Ctx := ⟨"bad_tenant", false⟩

/-- A payload of the bad_tenant caller naming the test tenant group. -/
def wpBad : RulePayload :=
  ⟨.str (uuidOfNat 0), "ingress", .str "IPv4", some (.str "tcp"),
   some 22, some 22, none, none, none, "bad_tenant"⟩

/-- A payload of the bad_tenant caller naming a nonexistent group. -/
def wpGone : RulePayload :=
  ⟨.str (uuidOfNat 7), "ingress", .str "IPv4", some (.str "tcp"),
   some 22, some 22, none, none, none, "bad_tenant"⟩

theorem C8_witness :
    validateFields wother false wpBad = .ok ("IPv4", some "tcp") ∧
    create_security_group_rule wother false wst1 wpGone = .error Err.notFound ∧
    create_security_group_rule wother false wst1 wpBad = .error Err.notFound :=
  ⟨rfl,
   (C8_not_found_hides_tenancy wother false wst1 wpGone "IPv4" (some "tcp")
      (uuidOfNat 7) rfl rfl rfl (by decide)).1 (by decide),
   (C8_not_found_hides_tenancy wother false wst1 wpBad "IPv4" (some "tcp")
      (uuidOfNat 0) rfl rfl rfl (by decide)).2.1
     ⟨uuidOfNat 0, "test_tenant", "webservers", "my webservers", none⟩
     (by decide) (by decide)⟩

/-- C7: a port-create whose security_groups list reaches an entry that is
neither a canonical identifier nor (under proxy mode) alias-shaped fails
as Malformed (400); one whose entry is shape-valid but matches no record
fails as NotFound (404) — in both cases the whole port create aborts. -/
theorem C7_port_create_reference_errors (ctx : Ctx) (proxy : Bool)
    (st : State) (pid tenant : String) (l1 l2 : List Token) (t : Token)
    (xs : List String)
    (hpre : resolveTokens proxy (portScope ctx)
      (ensure_default_security_group st tenant).2.groups l1 = .ok xs) :
    (tokenShapeOk proxy t = false →
      create_port ctx proxy st pid tenant (.given (l1 ++ t :: l2)) =
        .error Err.malformed) ∧
    (tokenShapeOk proxy t = true →
      tokenHasRecord (ensure_default_security_group st tenant).2.groups t =
        false →
      create_port ctx proxy st pid tenant (.given (l1 ++ t :: l2)) =
        .error Err.notFound) := by
  constructor
  · intro hbad
    have ht := resolveGroupRef_malformed proxy (portScope ctx)
      (ensure_default_security_group st tenant).2.groups t hbad
    simp only [create_port, is_attr_set, resolveRefs, if_true]
    rw [resolveTokens_append_ok _ _ _ l1 (t :: l2) xs hpre]
    simp [resolveTokens, ht]
  · intro hshape hrec
    have ht := resolveGroupRef_notFound proxy (portScope ctx)
      (ensure_default_security_group st tenant).2.groups t hshape hrec
    simp only [create_port, is_attr_set, resolveRefs, if_true]
    rw [resolveTokens_append_ok _ _ _ l1 (t :: l2) xs hpre]
    simp [resolveTokens, ht]

theorem C7_witness :
    create_port wadmin false wst0 "port1" "test_tenant"
        (.given [Token.str "not_valid"]) = .error Err.malformed ∧
    create_port wadmin true wst0 "port1" "test_tenant"
        (.given [Token.int 1]) = .error Err.notFound :=
  ⟨by
    have h := (C7_port_create_reference_errors wadmin false wst0 "port1"
      "test_tenant" [] [] (Token.str "not_valid") [] rfl).1 (by decide)
    simpa using h,
   by
    have h := (C7_port_create_reference_errors wadmin true wst0 "port1"
      "test_tenant" [] [] (Token.int 1) [] rfl).2 (by decide) (by decide)
    simpa using h⟩

/-- C6: a port whose group references were supplied as any mix of
canonical ids and proxy-mode external-id alias tokens reads back with
canonical group identifiers only — each returned reference is the stored
id (canonical 36-character format) of some group, never the raw alias. -/
theorem C6_membership_reads_canonical (ctx : Ctx) (proxy : Bool) (st : State)
    (pid : String) (ts : List Token) (sgids : List String) (st1 : State)
    (h : update_port ctx proxy st pid (.given ts) = .ok (sgids, st1))
    (hcanon : ∀ g ∈ st.groups, g.id.length = 36) :
    port_security_groups st1 pid = sgids ∧
    ∀ gid ∈ sgids, gid.length = 36 ∧ ∃ g ∈ st.groups, gid = g.id := by
  simp only [update_port, resolveRefs] at h
  rcases hr : resolveTokens proxy (portScope ctx) st.groups ts with e | gids
  · simp [hr] at h
  · simp only [hr, Except.ok.injEq, Prod.mk.injEq] at h
    obtain ⟨h1, h2⟩ := h
    have hold : (st.bindings.filter (fun b => b.1 != pid)).filter
        (fun b => b.1 == pid) = [] := by
      rw [List.filter_eq_nil_iff]
      intro b hb
      have hb2 := (List.mem_filter.mp hb).2
      simp only [bne_iff_ne, ne_eq] at hb2
      simp [hb2]
    constructor
    · rw [← h2, ← h1]
      simp [port_security_groups, List.filter_append, hold, List.filter_map,
        Function.comp, List.map_map]
    · intro gid hmem
      rw [← h1] at hmem
      obtain ⟨g, hg, hgid⟩ := resolveTokens_ok_mem proxy (portScope ctx)
        st.groups ts gids hr gid hmem
      exact ⟨by rw [hgid]; exact hcanon g hg, g, hg, hgid⟩

/-- A port state for the alias read-back scenario: two proxy groups with
external ids 1 and 2, the port initially bound to the first. -/
def wstq : State :=
  ⟨[⟨uuidOfNat 0, "test_tenant", "foo", "bar", some 1⟩,
    ⟨uuidOfNat 1, "test_tenant", "foo", "bar", some 2⟩],
   [], [("port1", uuidOfNat 0)], 2⟩

theorem C6_witness :
    update_port wadmin true wstq "port1"
        (.given [Token.int 1, Token.str (uuidOfNat 1)]) =
      .ok ([uuidOfNat 0, uuidOfNat 1],
        ⟨wstq.groups, [], [("port1", uuidOfNat 0), ("port1", uuidOfNat 1)], 2⟩) ∧
    port_security_groups
        ⟨wstq.groups, [], [("port1", uuidOfNat 0), ("port1", uuidOfNat 1)], 2⟩
        "port1" = [uuidOfNat 0, uuidOfNat 1] :=
  ⟨rfl,
   (C6_membership_reads_canonical wadmin true wstq "port1"
      [Token.int 1, Token.str (uuidOfNat 1)] [uuidOfNat 0, uuidOfNat 1]
      ⟨wstq.groups, [], [("port1", uuidOfNat 0), ("port1", uuidOfNat 1)], 2⟩
      rfl (by decide)).1⟩

/-- The rule committed for wp1 against wst1. -/
def wr1 : SecurityGroupRule :=
  ⟨uuidOfNat 1, uuidOfNat 0, "test_tenant", "ingress", "IPv4", some "tcp",
   some 22, some 22, some "10.0.0.1/24", none, none⟩

/-- The state after committing wr1 into wst1. -/
def wstA : State :=
  ⟨[⟨uuidOfNat 0, "test_tenant", "webservers", "my webservers", none⟩],
   [wr1], [], 2⟩

/-- The prepared (unassigned-id) form of wp1 against wst1. -/
def wr0 : SecurityGroupRule :=
  ⟨"", uuidOfNat 0, "test_tenant", "ingress", "IPv4", some "tcp",
   some 22, some 22, some "10.0.0.1/24", none, none⟩

/-- The prepared (unassigned-id) form of wp2 against wst1. -/
def wr0b : SecurityGroupRule :=
  ⟨"", uuidOfNat 0, "test_tenant", "ingress", "IPv4", some "tcp",
   some 23, some 23, some "10.0.0.1/24", none, none⟩

/-- C2: for a two-item batch against one group whose second item
duplicates the first, the emulated bulk path and the native bulk path
return the same Conflict outcome and leave zero rules from the batch
committed. -/
theorem C2_native_emulated_agree (ctx : Ctx) (proxy : Bool) (st : State)
    (p : RulePayload) (r1 : SecurityGroupRule) (st1 : State)
    (h : create_security_group_rule ctx proxy st p = .ok (r1, st1)) :
    create_rules_native ctx proxy st [p, p] = .error Err.conflict ∧
    create_rules_emulated ctx proxy st [p, p] = .error Err.conflict ∧
    (commitState st (create_rules_native ctx proxy st [p, p])).rules =
      st.rules ∧
    (commitState st (create_rules_emulated ctx proxy st [p, p])).rules =
      st.rules := by
  have hdup := create_rule_self_duplicate ctx proxy st p r1 st1 h
  have hnat : create_rules_native ctx proxy st [p, p] = .error Err.conflict := by
    simp [create_rules_native, sameGroupBatch, createRulesInTxn, h, hdup]
  have hemu : create_rules_emulated ctx proxy st [p, p] =
      .error Err.conflict := by
    simp [create_rules_emulated, h, hdup]
  exact ⟨hnat, hemu, by rw [hnat]; rfl, by rw [hemu]; rfl⟩

theorem C2_witness :
    create_security_group_rule wadmin false wst1 wp1 = .ok (wr1, wstA) ∧
    create_rules_native wadmin false wst1 [wp1, wp1] = .error Err.conflict ∧
    create_rules_emulated wadmin false wst1 [wp1, wp1] = .error Err.conflict :=
  ⟨rfl,
   (C2_native_emulated_agree wadmin false wst1 wp1 wr1 wstA rfl).1,
   (C2_native_emulated_agree wadmin false wst1 wp1 wr1 wstA rfl).2.1⟩

/-- C1: against an existing group, a second rule payload agreeing with a
committed rule on direction, protocol, port range, ethertype and source
yields Conflict whether it arrives as a second single create, inside one
bulk batch together with the first payload, or as a batch item against
the already-stored rule; a payload differing in at least one of those
fields raises no Conflict on any of the three paths. -/
theorem C1_duplicate_detection_paths (ctx : Ctx) (proxy : Bool) (st : State)
    (p1 p2 : RulePayload) (r1 : SecurityGroupRule) (st1 : State)
    (r2 : SecurityGroupRule)
    (h1 : create_security_group_rule ctx proxy st p1 = .ok (r1, st1))
    (h2 : prepareRule ctx proxy st.groups p2 = .ok r2)
    (hg : p2.security_group_id = p1.security_group_id)
    (hx2 : r2.external_id = none)
    (hfresh : st.rules.any (fun ex => isDuplicate ex r2) = false) :
    (ruleKey r2 = ruleKey r1 →
      create_security_group_rule ctx proxy st1 p2 = .error Err.conflict ∧
      create_rules_native ctx proxy st [p1, p2] = .error Err.conflict ∧
      create_rules_native ctx proxy st1 [p2] = .error Err.conflict) ∧
    (ruleKey r2 ≠ ruleKey r1 →
      (∃ q, create_security_group_rule ctx proxy st1 p2 = .ok q) ∧
      (∃ q, create_rules_native ctx proxy st [p1, p2] = .ok q) ∧
      (∃ q, create_rules_native ctx proxy st1 [p2] = .ok q)) := by
  obtain ⟨r0, hp0, hr1, hst1⟩ := create_rule_ok_inv ctx proxy st p1 r1 st1 h1
  have hgroups : st1.groups = st.groups := by rw [hst1]
  have hrules : st1.rules = st.rules ++ [r1] := by rw [hst1]
  have hp2 : prepareRule ctx proxy st1.groups p2 = .ok r2 := by
    rw [hgroups]; exact h2
  have hsame : sameGroupBatch [p1, p2] = true := by simp [sameGroupBatch, hg]
  have hsame1 : sameGroupBatch [p2] = true := by simp [sameGroupBatch]
  constructor
  · intro hkey
    have hcreate : create_security_group_rule ctx proxy st1 p2 =
        .error Err.conflict := by
      have hdup : (st1.rules.any fun ex => isDuplicate ex r2) = true := by
        rw [hrules, List.any_append]
        have hd : isDuplicate r1 r2 = true := beq_iff_eq.mpr hkey.symm
        simp [hd]
      simp [create_security_group_rule, hp2, hx2, hdup]
    refine ⟨hcreate, ?_, ?_⟩
    · simp [create_rules_native, hsame, createRulesInTxn, h1, hcreate]
    · simp [create_rules_native, hsame1, createRulesInTxn, hcreate]
  · intro hkey
    have hnodup : (st1.rules.any fun ex => isDuplicate ex r2) = false := by
      rw [hrules, List.any_append]
      have hd : isDuplicate r1 r2 = false :=
        beq_eq_false_iff_ne.mpr (fun hh => hkey hh.symm)
      simp [hfresh, hd]
    have hcreate : create_security_group_rule ctx proxy st1 p2 =
        .ok ({ r2 with id := uuidOfNat st1.nextId },
          { st1 with
            rules := st1.rules ++ [{ r2 with id := uuidOfNat st1.nextId }],
            nextId := st1.nextId + 1 }) := by
      simp [create_security_group_rule, hp2, hx2, hnodup]
    have hnat2 : create_rules_native ctx proxy st [p1, p2] =
        .ok ([r1, { r2 with id := uuidOfNat st1.nextId }],
          { st1 with
            rules := st1.rules ++ [{ r2 with id := uuidOfNat st1.nextId }],
            nextId := st1.nextId + 1 }) := by
      simp [create_rules_native, hsame, createRulesInTxn, h1, hcreate]
    have hnat1 : create_rules_native ctx proxy st1 [p2] =
        .ok ([{ r2 with id := uuidOfNat st1.nextId }],
          { st1 with
            rules := st1.rules ++ [{ r2 with id := uuidOfNat st1.nextId }],
            nextId := st1.nextId + 1 }) := by
      simp [create_rules_native, hsame1, createRulesInTxn, hcreate]
    exact ⟨⟨_, hcreate⟩, ⟨_, hnat2⟩, ⟨_, hnat1⟩⟩

theorem C1_witness :
    create_security_group_rule wadmin false wstA wp1 = .error Err.conflict ∧
    create_rules_native wadmin false wst1 [wp1, wp1] = .error Err.conflict ∧
    create_rules_native wadmin false wstA [wp1] = .error Err.conflict ∧
    (∃ q, create_security_group_rule wadmin false wstA wp2 = .ok q) ∧
    (∃ q, create_rules_native wadmin false wst1 [wp1, wp2] = .ok q) :=
  ⟨((C1_duplicate_detection_paths wadmin false wst1 wp1 wp1 wr1 wstA wr0
      rfl rfl rfl rfl rfl).1 rfl).1,
   ((C1_duplicate_detection_paths wadmin false wst1 wp1 wp1 wr1 wstA wr0
      rfl rfl rfl rfl rfl).1 rfl).2.1,
   ((C1_duplicate_detection_paths wadmin false wst1 wp1 wp1 wr1 wstA wr0
      rfl rfl rfl rfl rfl).1 rfl).2.2,
   ((C1_duplicate_detection_paths wadmin false wst1 wp1 wp2 wr1 wstA wr0b
      rfl rfl rfl rfl rfl).2 (by simp [ruleKey, wr0b, wr1])).1,
   ((C1_duplicate_detection_paths wadmin false wst1 wp1 wp2 wr1 wstA wr0b
      rfl rfl rfl rfl rfl).2 (by simp [ruleKey, wr0b, wr1])).2.1⟩

end SecGroup
